import Mathlib

/-!
Verification of the conf.json test-playbook reconciliation logic of the
demisto-sdk repository (format/update_generic_yml.py: `BaseUpdateYML`) and of
the test-fixture writer (TestSuite/conf_json.py: `ConfJSON.write_json`).

The embedding below translates the Python source.  The two helpers
`get_not_registered_tests` and `search_and_delete_from_conf` are imported by
update_generic_yml.py from demisto_sdk.commands.common.tools, whose source is
not part of this excerpt; those two are modelled from the specification
(definitions `findUnregistered` and `deregisterTests`) and marked as such.

Modelling conventions.
  - The conf.json document is a record `ConfDoc`: its "tests" key is
    `Option (List TestEntry)` (`none` models a document lacking the key, so a
    Python `KeyError` is observable), and every other top-level key is kept
    in an opaque association list `others` that the reconciliation code never
    touches.
  - Loading the file is a parameter `Option ConfDoc`; `none` models
    `FileNotFoundError` raised by `_load_conf_file`.
  - An operation returns `Except Unit (Option ConfDoc)`: `.error ()` models
    an exception escaping to the caller (no write), `.ok none` models a
    normal return that never wrote conf.json, and `.ok (some d)` models a
    normal return after writing document `d` via `_save_to_conf_json`.
  - `click.confirm` and the `assume_answer` flag are modelled by a parameter
    `assume_answer : Option Bool` plus the interactive answer
    `prompt_answer : Bool`, resolved exactly as the Python
    `if self.assume_answer: ... elif self.assume_answer is False: ... else:
    click.confirm(...)` chain.
  - Python `"sub" in s.lower()` is `strContains (lowerStr s) "sub"`.
    Python `any(t for t in tests if cond(t))` is `tests.any cond`: each
    element of the filtered generator satisfies `cond`, hence contains the
    searched substring, hence is a nonempty (truthy) string.
-/

namespace DemistoSdk

/-- Occurrence of `pat` at the head of `s`, on explicit character lists. -/
def charsLead : List Char → List Char → Bool
  | [], _ => true
  | _ :: _, [] => false
  | a :: pat, b :: s => a == b && charsLead pat s

/-- Occurrence of `pat` anywhere inside `s`, on explicit character lists. -/
def charsWithin (pat : List Char) (s : List Char) : Bool :=
  charsLead pat s ||
    match s with
    | [] => false
    | _ :: rest => charsWithin pat rest

/-- Python `sub in s` on strings: substring containment. -/
def strContains (s sub : String) : Bool :=
  charsWithin sub.toList s.toList

/-- Python `s.lower()` (ASCII is all that the reconciliation compares). -/
def lowerStr (s : String) : String :=
  String.mk (s.toList.map Char.toLower)

/-- Sentinel test per the spec glossary: a declared test is a "no tests"
sentinel when it contains `no test` or `no tests` case-insensitively. -/
def isNoTestSentinel (t : String) : Bool :=
  strContains (lowerStr t) "no test" || strContains (lowerStr t) "no tests"

/-- The `integrations` field of a conf.json test entry: either a single
content-item id or a sequence of ids (the Python value is a str or a list). -/
inductive Integrations where
  | single (id : String)
  | multiple (ids : List String)
  deriving DecidableEq, Repr

/-- One record of the `tests` sequence of conf.json. -/
structure TestEntry where
  playbookID : String
  integrations : Option Integrations
  deriving DecidableEq, Repr

/-- The conf.json document: the `tests` key (`none` when the key is absent)
plus all other top-level keys, which this logic never inspects or edits. -/
structure ConfDoc where
  tests : Option (List TestEntry)
  others : List (String × String)
  deriving DecidableEq, Repr

/-- Membership of a content-item id in an `integrations` field, covering both
the single-value and the sequence form. -/
def integrationsContains : Option Integrations → String → Bool
  | none, _ => false
  | some (Integrations.single s), cid => s == cid
  | some (Integrations.multiple l), cid => l.contains cid

/-- Whether a conf.json test entry registers test playbook `tpb` for the
content item `content_item_id` of kind `file_type`: an integration needs the
entry to name it in `integrations`, a script or playbook only needs the
`playbookID` to match. -/
def matchesEntry (file_type content_item_id tpb : String) (e : TestEntry) : Bool :=
  if file_type = "integration" then
    e.playbookID == tpb && integrationsContains e.integrations content_item_id
  else
    e.playbookID == tpb

/-- Modelled from the spec: `get_not_registered_tests` (the spec operation
`findUnregistered`), defined in demisto_sdk.commands.common.tools, which is
absent from the source excerpt.  Per the spec: for each declared
test-playbook id that is not itself a "no tests" sentinel, keep it when the
registry has no entry linking that playbook id to this content item, and
return the kept ids as a sub-sequence of the declared order. -/
def findUnregistered (conf_tests : List TestEntry) (content_item_id file_type : String)
    (declaredTests : List String) : List String :=
  declaredTests.filter fun t =>
    !isNoTestSentinel t && !conf_tests.any (matchesEntry file_type content_item_id t)

/-- Modelled from the spec: `search_and_delete_from_conf` (the spec operation
`deregisterTests`), defined in demisto_sdk.commands.common.tools, which is
absent from the source excerpt.  Per the spec: a no-op when
`explicitNoTests`; otherwise for kind integration an entry whose
`integrations` is exactly this id is dropped, an entry whose multi-value
`integrations` contains it among others loses only that element, and for
script or playbook an entry is dropped when its `playbookID` is declared. -/
def deregisterTests (conf_tests : List TestEntry) (content_item_id file_type : String)
    (declaredTests : List String) (explicitNoTests : Bool) : List TestEntry :=
  if explicitNoTests then conf_tests
  else
    conf_tests.filterMap fun e =>
      if file_type = "integration" then
        match e.integrations with
        | some (Integrations.single s) =>
          if s = content_item_id then none else some e
        | some (Integrations.multiple l) =>
          if l = [content_item_id] then none
          else if l.contains content_item_id then
            some { e with
                   integrations := some (Integrations.multiple
                     (l.filter fun x => x ≠ content_item_id)) }
          else some e
        | none => some e
      else
        if declaredTests.contains e.playbookID then none else some e

/-- Translation of `BaseUpdateYML.get_test_playbooks_configuration`
(update_generic_yml.py lines 398-421). -/
def get_test_playbooks_configuration (test_playbooks : List String)
    (content_item_id file_type : String) : List TestEntry :=
  if file_type = "integration" then
    test_playbooks.map fun t =>
      { playbookID := t, integrations := some (Integrations.single content_item_id) }
  else if file_type = "playbook" ∨ file_type = "script" then
    test_playbooks.map fun t => { playbookID := t, integrations := none }
  else []

/-- Resolution of the confirmation outcome, per the Python chain
`if self.assume_answer: yes; elif self.assume_answer is False: no;
else: click.confirm(...)`. -/
def resolveAnswer : Option Bool → Bool → Bool
  | some b, _ => b
  | none, prompt_answer => prompt_answer

/-- The condition computed at the top of `BaseUpdateYML.remove_from_conf_json`
(update_generic_yml.py lines 280-284): some declared test contains
`no test` or `no tests` case-insensitively. -/
def no_test_playbooks_explicitly (related_test_playbook : List String) : Bool :=
  related_test_playbook.any fun test =>
    strContains (lowerStr test) "no test" || strContains (lowerStr test) "no tests"

/-- Translation of `BaseUpdateYML.update_conf_json` (update_generic_yml.py
lines 302-352).  `conf_file` is the outcome of `_load_conf_file`
(`none` = FileNotFoundError), `data_tests` is `self.data.get("tests", [])`,
`content_item_id` stands for `_get_file_id(file_type, self.data)`. -/
def update_conf_json (conf_file : Option ConfDoc) (data_tests : List String)
    (content_item_id file_type : String) (assume_answer : Option Bool)
    (prompt_answer : Bool) : Except Unit (Option ConfDoc) :=
  let test_playbooks := data_tests
  if test_playbooks.isEmpty then Except.ok none
  else if test_playbooks.any (fun test => strContains (lowerStr test) "no test") then
    Except.ok none
  else
    match conf_file with
    | none => Except.ok none
    | some conf_json_content =>
      match conf_json_content.tests with
      | none => Except.error ()
      | some conf_json_test_configuration =>
        let not_registered_tests :=
          findUnregistered conf_json_test_configuration content_item_id file_type
            test_playbooks
        if not_registered_tests.isEmpty then Except.ok none
        else if resolveAnswer assume_answer prompt_answer then
          Except.ok (some { conf_json_content with
            tests := some (conf_json_test_configuration ++
              get_test_playbooks_configuration not_registered_tests content_item_id
                file_type) })
        else Except.ok none

/-- Translation of `BaseUpdateYML.remove_from_conf_json` (update_generic_yml.py
lines 272-300).  Same conventions as `update_conf_json`; this operation has no
confirmation step and always writes when the document loads and has a
`tests` key. -/
def remove_from_conf_json (conf_file : Option ConfDoc) (data_tests : List String)
    (file_type content_item_id : String) : Except Unit (Option ConfDoc) :=
  let related_test_playbook := data_tests
  match conf_file with
  | none => Except.ok none
  | some conf_json_content =>
    match conf_json_content.tests with
    | none => Except.error ()
    | some conf_json_test_configuration =>
      Except.ok (some { conf_json_content with
        tests := some (deregisterTests conf_json_test_configuration content_item_id
          file_type related_test_playbook
          (no_test_playbooks_explicitly related_test_playbook)) })

end DemistoSdk

namespace ConfJSON

/-- JSON value of one top-level field of the fixture document, covering the
shapes `ConfJSON.write_json` can serialize: Python `None` (JSON null), a list
of strings, or a string-keyed mapping. -/
inductive ConfField where
  | null
  | strList (l : List String)
  | mapping (l : List (String × Int))
  deriving DecidableEq, Repr

/-- Serialization of an `Optional[List[str]]` argument value. -/
def serializeList : Option (List String) → ConfField
  | none => ConfField.null
  | some l => ConfField.strList l

/-- Serialization of the `Optional[dict]` docker-thresholds argument value. -/
def serializeMap : Option (List (String × Int)) → ConfField
  | none => ConfField.null
  | some m => ConfField.mapping m

/-- Translation of `ConfJSON.write_json` (TestSuite/conf_json.py lines 17-46):
the defaulting block is reproduced line by line (note the source assigns
`skipped_tests = None` where the parallel branches assign `[]`), then the
dict literal written to the file is returned as an ordered key/value list. -/
def write_json (tests skipped_tests skipped_integrations unmockable_integrations :
    Option (List String)) (docker_thresholds : Option (List (String × Int))) :
    List (String × ConfField) :=
  let tests := match tests with
    | none => some ([] : List String)
    | some t => some t
  let skipped_tests := match skipped_tests with
    | none => (none : Option (List String))
    | some t => some t
  let skipped_integrations := match skipped_integrations with
    | none => some ([] : List String)
    | some t => some t
  let unmockable_integrations := match unmockable_integrations with
    | none => some ([] : List String)
    | some t => some t
  let docker_thresholds := match docker_thresholds with
    | none => some ([] : List (String × Int))
    | some t => some t
  [("tests", serializeList tests),
   ("skipped_tests", serializeList skipped_tests),
   ("skipped_integrations", serializeList skipped_integrations),
   ("unmockable_integrations", serializeList unmockable_integrations),
   ("docker_thresholds", serializeMap docker_thresholds)]

end ConfJSON

namespace DemistoSdk

/-- C1: counterexample.  "TPB1" is not a "no tests" sentinel, it is declared
and has no matching entry in the (empty) registry, and the confirmation is
affirmative — so per the claim it must be detected (and registered) as
unregistered.  Yet `update_conf_json` returns without computing or registering
anything, because the declared list also contains a sentinel: mixing sentinel
and non-sentinel ids short-circuits the whole computation. -/
theorem c1_mixed_sentinel_counterexample :
    isNoTestSentinel "TPB1" = false ∧
    findUnregistered [] "Slack" "script" ["TPB1"] = ["TPB1"] ∧
    update_conf_json (some { tests := some [], others := [] })
      ["TPB1", "No tests (auto formatted)"] "Slack" "script" (some true) true =
      Except.ok none :=
  ⟨by decide, by decide, by rfl⟩

/-- C1 (amended): when any declared test contains the sentinel substring
"no test" (case-insensitively), `update_conf_json` skips the unregistered-test
computation entirely and returns without writing; only when no declared test
is a sentinel does it compute `findUnregistered` — the sub-sequence of
declared non-sentinel ids with no matching registry entry, in declared
order — and, on an affirmative confirmation, register exactly those ids. -/
theorem c1_sentinel_short_circuit (cts : List TestEntry) (os : List (String × String))
    (cid ft : String) (declared : List String) (ans : Option Bool) (p : Bool) :
    (declared.any (fun test => strContains (lowerStr test) "no test") = true →
      update_conf_json (some { tests := some cts, others := os }) declared cid ft ans p =
        Except.ok none) ∧
    (declared.any (fun test => strContains (lowerStr test) "no test") = false →
      resolveAnswer ans p = true →
      findUnregistered cts cid ft declared ≠ [] →
      update_conf_json (some { tests := some cts, others := os }) declared cid ft ans p =
        Except.ok (some (ConfDoc.mk (some (cts ++
          get_test_playbooks_configuration (findUnregistered cts cid ft declared) cid ft))
          os))) := by
  constructor
  · intro hany
    have hne : declared.isEmpty = false := by
      rcases declared with _ | ⟨a, l⟩
      · simp at hany
      · rfl
    simp [update_conf_json, hne, hany]
  · intro hsent hans hnr
    have hne : declared.isEmpty = false := by
      rcases declared with _ | ⟨a, l⟩
      · exact absurd rfl hnr
      · rfl
    have hnre : (findUnregistered cts cid ft declared).isEmpty = false :=
      List.isEmpty_eq_false.mpr hnr
    simp [update_conf_json, hne, hsent, hnre, hans]

/-- C1 (amended) witness: the no-sentinel leg of `c1_sentinel_short_circuit`
evaluated at a concrete input. -/
theorem c1_sentinel_short_circuit_witness :
    update_conf_json (some { tests := some [], others := [] }) ["TPB1"] "Slack" "script"
      (some true) true =
      Except.ok (some (ConfDoc.mk (some ([] ++
        get_test_playbooks_configuration (findUnregistered [] "Slack" "script" ["TPB1"])
          "Slack" "script")) [])) :=
  (c1_sentinel_short_circuit [] [] "Slack" "script" ["TPB1"] (some true) true).2
    (by decide) (by rfl) (by decide)

/-- C2: the scenario — registry with one entry linking TPB1 to Slack, content
item Slack of kind integration declaring TPB1 and TPB2 — yields exactly
[TPB2]; and in general, for kind integration a declared non-sentinel id is
registered exactly when some entry has that `playbookID` and an
`integrations` field containing the content item's id, where containment
covers both the single-value and the sequence form. -/
theorem c2_integration_registration_rule :
    findUnregistered
      [{ playbookID := "TPB1", integrations := some (Integrations.single "Slack") }]
      "Slack" "integration" ["TPB1", "TPB2"] = ["TPB2"] ∧
    (∀ cid : String, integrationsContains (some (Integrations.single cid)) cid = true) ∧
    (∀ (cid : String) (l : List String), cid ∈ l →
      integrationsContains (some (Integrations.multiple l)) cid = true) ∧
    ∀ (conf_tests : List TestEntry) (cid t : String) (declared : List String),
      isNoTestSentinel t = false → t ∈ declared →
      (t ∉ findUnregistered conf_tests cid "integration" declared ↔
        ∃ e ∈ conf_tests, e.playbookID = t ∧
          integrationsContains e.integrations cid = true) := by
  refine ⟨by decide, fun cid => by simp [integrationsContains],
    fun cid l h => by simpa [integrationsContains] using h, ?_⟩
  intro conf_tests cid t declared hsent ht
  simp [findUnregistered, List.mem_filter, hsent, ht, matchesEntry,
    List.any_eq_true, beq_iff_eq]

/-- C2 witness: the general matching rule of `c2_integration_registration_rule`
instantiated at a concrete registry where the declared id is registered
through a sequence-valued `integrations` field. -/
theorem c2_integration_registration_rule_witness :
    "TPB9" ∉ findUnregistered
      [TestEntry.mk "TPB9" (some (Integrations.multiple ["A", "Slack"]))]
      "Slack" "integration" ["TPB9"] ↔
    ∃ e ∈ [TestEntry.mk "TPB9" (some (Integrations.multiple ["A", "Slack"]))],
      e.playbookID = "TPB9" ∧ integrationsContains e.integrations "Slack" = true :=
  c2_integration_registration_rule.2.2.2
    [TestEntry.mk "TPB9" (some (Integrations.multiple ["A", "Slack"]))]
    "Slack" "TPB9" ["TPB9"] (by decide) (by decide)

/-- C3: counterexample.  The condition `remove_from_conf_json` computes is an
existential (some declared test is a sentinel), not the claimed universal
(all declared tests are sentinels): on the mixed list below the code's
condition is true although the declared tests do not resolve entirely to
sentinels. -/
theorem c3_any_vs_all_counterexample :
    no_test_playbooks_explicitly ["TPB1", "No tests (auto formatted)"] = true ∧
    (["TPB1", "No tests (auto formatted)"].all isNoTestSentinel) = false := by
  decide

/-- C3 (amended): the explicit-no-tests condition of `remove_from_conf_json`
holds exactly when at least one declared test is a "no tests" sentinel; with
the condition true, `deregisterTests` is the identity on the tests sequence
and `remove_from_conf_json` writes the registry back unchanged. -/
theorem c3_explicit_no_tests_identity (related : List String) (cts : List TestEntry)
    (os : List (String × String)) (cid ft : String) :
    (no_test_playbooks_explicitly related = true ↔
      ∃ t ∈ related, isNoTestSentinel t = true) ∧
    deregisterTests cts cid ft related true = cts ∧
    (no_test_playbooks_explicitly related = true →
      remove_from_conf_json (some { tests := some cts, others := os }) related ft cid =
        Except.ok (some { tests := some cts, others := os })) := by
  refine ⟨?_, rfl, ?_⟩
  · simp [no_test_playbooks_explicitly, isNoTestSentinel, List.any_eq_true]
  · intro h
    simp [remove_from_conf_json, h, deregisterTests]

/-- C3 (amended) witness: `c3_explicit_no_tests_identity` at a concrete
sentinel-bearing declared list and a nonempty registry. -/
theorem c3_explicit_no_tests_identity_witness :
    remove_from_conf_json
      (some (ConfDoc.mk (some [TestEntry.mk "TPB1" none]) []))
      ["No tests (auto formatted)"] "script" "Slack" =
      Except.ok (some (ConfDoc.mk (some [TestEntry.mk "TPB1" none]) [])) :=
  (c3_explicit_no_tests_identity ["No tests (auto formatted)"]
    [TestEntry.mk "TPB1" none] [] "Slack" "script").2.2 (by decide)

/-- C4: evaluation of the fixture writer at the failing input (all arguments
defaulted).  The written document has the five expected keys, but
`skipped_tests` is serialized as JSON null — the defaulting branch assigns
None where the parallel branches assign the empty list — while the claim and
the spec call for an empty sequence. -/
theorem c4_write_json_default_eval :
    ConfJSON.write_json none none none none none =
      [("tests", ConfJSON.ConfField.strList []),
       ("skipped_tests", ConfJSON.ConfField.null),
       ("skipped_integrations", ConfJSON.ConfField.strList []),
       ("unmockable_integrations", ConfJSON.ConfField.strList []),
       ("docker_thresholds", ConfJSON.ConfField.mapping [])] := by
  rfl

end DemistoSdk

namespace DemistoSdk

/-- Helper: the entries `get_test_playbooks_configuration` builds, described
uniformly for the three registrable kinds. -/
theorem configuration_entries_shape (u : List String) (cid ft : String)
    (hft : ft = "integration" ∨ ft = "playbook" ∨ ft = "script") :
    get_test_playbooks_configuration u cid ft = u.map fun t =>
      if ft = "integration" then TestEntry.mk t (some (Integrations.single cid))
      else TestEntry.mk t none := by
  rcases hft with h | h | h <;> subst h
  · simp [get_test_playbooks_configuration]
  · simp [get_test_playbooks_configuration,
      (by decide : ¬("playbook" : String) = "integration")]
  · simp [get_test_playbooks_configuration,
      (by decide : ¬("script" : String) = "integration")]

/-- Helper: an entry built by `get_test_playbooks_configuration` for a
test-playbook id matches that id for the same content item and kind. -/
theorem configuration_entry_matches (u : List String) (cid ft t : String)
    (hft : ft = "integration" ∨ ft = "playbook" ∨ ft = "script") (htu : t ∈ u) :
    (get_test_playbooks_configuration u cid ft).any (matchesEntry ft cid t) = true := by
  rw [configuration_entries_shape u cid ft hft]
  refine List.any_eq_true.mpr
    ⟨if ft = "integration" then TestEntry.mk t (some (Integrations.single cid))
      else TestEntry.mk t none, List.mem_map.mpr ⟨t, htu, rfl⟩, ?_⟩
  rcases hft with h | h | h <;> subst h
  · simp [matchesEntry, integrationsContains]
  · simp [matchesEntry, (by decide : ¬("playbook" : String) = "integration")]
  · simp [matchesEntry, (by decide : ¬("script" : String) = "integration")]

/-- C5: with an affirmative confirmation, a nonempty list `u` of unregistered
ids, a declared list free of sentinels, and a registrable kind,
`update_conf_json` writes back the loaded document with one new entry per id
of `u` appended in order — `playbookID` only for script and playbook, plus an
`integrations` field naming the content item for integration — while every
pre-existing entry of `tests` keeps its place and every other top-level field
is untouched. -/
theorem c5_register_appends_entries (cts : List TestEntry) (os : List (String × String))
    (cid ft : String) (declared u : List String) (ans : Option Bool) (p : Bool)
    (hft : ft = "integration" ∨ ft = "playbook" ∨ ft = "script")
    (hsent : declared.any (fun test => strContains (lowerStr test) "no test") = false)
    (hu : findUnregistered cts cid ft declared = u) (hune : u ≠ [])
    (hans : resolveAnswer ans p = true) :
    update_conf_json (some { tests := some cts, others := os }) declared cid ft ans p =
      Except.ok (some (ConfDoc.mk (some (cts ++ u.map fun t =>
        if ft = "integration" then TestEntry.mk t (some (Integrations.single cid))
        else TestEntry.mk t none)) os)) := by
  have hcfg := configuration_entries_shape u cid ft hft
  have hne : declared.isEmpty = false := by
    rcases declared with _ | ⟨a, l⟩
    · simp [findUnregistered] at hu
      exact absurd hu hune
    · rfl
  have hnre : (findUnregistered cts cid ft declared).isEmpty = false := by
    rw [hu]
    exact List.isEmpty_eq_false.mpr hune
  simp only [update_conf_json, hne, hsent, hnre, hans, hu, hcfg]
  simp [hu, hune]

/-- C5 witness: `c5_register_appends_entries` for an integration with one
unregistered test playbook and an empty registry. -/
theorem c5_register_appends_entries_witness :
    update_conf_json (some { tests := some [], others := [] }) ["TPB2"] "Slack"
      "integration" (some true) true =
      Except.ok (some (ConfDoc.mk (some ([] ++ ["TPB2"].map fun t =>
        if ("integration" : String) = "integration" then
          TestEntry.mk t (some (Integrations.single "Slack"))
        else TestEntry.mk t none)) [])) :=
  c5_register_appends_entries [] [] "Slack" "integration" ["TPB2"] ["TPB2"]
    (some true) true (Or.inl rfl) (by decide) (by decide) (by decide) rfl

/-- C6: registering the ids returned by `findUnregistered` (appending the
entries `get_test_playbooks_configuration` builds for them) and asking
`findUnregistered` again with the same content item and declared tests yields
the empty sequence, for every registry and declared list and every
registrable kind. -/
theorem c6_reregister_finds_nothing (cts : List TestEntry) (cid ft : String)
    (declared : List String)
    (hft : ft = "integration" ∨ ft = "playbook" ∨ ft = "script") :
    findUnregistered (cts ++ get_test_playbooks_configuration
      (findUnregistered cts cid ft declared) cid ft) cid ft declared = [] := by
  refine List.filter_eq_nil_iff.mpr ?_
  intro t ht
  by_cases hs : isNoTestSentinel t = true
  · simp [hs]
  · have hs2 : isNoTestSentinel t = false := by simpa using hs
    have hany : (cts ++ get_test_playbooks_configuration
        (findUnregistered cts cid ft declared) cid ft).any (matchesEntry ft cid t) =
        true := by
      rw [List.any_append]
      by_cases hc : cts.any (matchesEntry ft cid t) = true
      · simp [hc]
      · have hcf : cts.any (matchesEntry ft cid t) = false := by simpa using hc
        have htu : t ∈ findUnregistered cts cid ft declared := by
          simp [findUnregistered, List.mem_filter, ht, hs2, hcf]
        simp [configuration_entry_matches (findUnregistered cts cid ft declared)
          cid ft t hft htu]
    simp [hs2, hany]

/-- C6 witness: `c6_reregister_finds_nothing` for a playbook starting from an
empty registry. -/
theorem c6_reregister_finds_nothing_witness :
    findUnregistered ([] ++ get_test_playbooks_configuration
      (findUnregistered [] "X" "playbook" ["TPB1"]) "X" "playbook")
      "X" "playbook" ["TPB1"] = [] :=
  c6_reregister_finds_nothing [] "X" "playbook" ["TPB1"] (Or.inr (Or.inl rfl))

/-- C7: when loading conf.json raises FileNotFoundError (conf_file = none),
both reconciliation operations return normally (no error) and never write the
registry file, whatever the content item, kind, declared tests and
confirmation settings. -/
theorem c7_missing_registry_file (declared : List String) (cid ft : String)
    (ans : Option Bool) (p : Bool) :
    update_conf_json none declared cid ft ans p = Except.ok none ∧
    remove_from_conf_json none declared ft cid = Except.ok none := by
  constructor
  · simp [update_conf_json]
  · rfl

/-- C8: a loaded registry document lacking the top-level `tests` key makes
both operations raise to the caller (the Python subscript raises KeyError)
without writing the file; for `update_conf_json` the document is only loaded
once the declared list is nonempty and sentinel-free, so those are the
conditions under which the corrupt document is reached. -/
theorem c8_missing_tests_key (declared : List String) (cid ft : String)
    (ans : Option Bool) (p : Bool) (os : List (String × String))
    (hne : declared ≠ [])
    (hsent : declared.any (fun test => strContains (lowerStr test) "no test") = false) :
    update_conf_json (some { tests := none, others := os }) declared cid ft ans p =
      Except.error () ∧
    remove_from_conf_json (some { tests := none, others := os }) declared ft cid =
      Except.error () := by
  constructor
  · have hne2 : declared.isEmpty = false := List.isEmpty_eq_false.mpr hne
    simp [update_conf_json, hne2, hsent]
  · rfl

/-- C8 witness: a concrete declared list reaching the corrupt document. -/
theorem c8_missing_tests_key_witness :
    update_conf_json (some { tests := none, others := [] }) ["TPB1"] "Slack" "script"
      (some true) true = Except.error () ∧
    remove_from_conf_json (some { tests := none, others := [] }) ["TPB1"] "script"
      "Slack" = Except.error () :=
  c8_missing_tests_key ["TPB1"] "Slack" "script" (some true) true []
    (by decide) (by decide)

/-- C9: `get_test_playbooks_configuration` builds no conf.json entries for any
kind other than integration, playbook and script. -/
theorem c9_other_kinds_no_configuration (tps : List String) (cid ft : String)
    (h1 : ft ≠ "integration") (h2 : ft ≠ "playbook") (h3 : ft ≠ "script") :
    get_test_playbooks_configuration tps cid ft = [] := by
  unfold get_test_playbooks_configuration
  rw [if_neg h1, if_neg (not_or.mpr ⟨h2, h3⟩)]

/-- C9 witness: a kind outside the three registrable ones. -/
theorem c9_other_kinds_no_configuration_witness :
    get_test_playbooks_configuration ["TPB1"] "Slack" "incidentfield" = [] :=
  c9_other_kinds_no_configuration ["TPB1"] "Slack" "incidentfield"
    (by decide) (by decide) (by decide)

/-- C10: when unregistered tests exist (nonempty, sentinel-free declared list
whose `findUnregistered` result is nonempty) but the confirmation outcome is
negative — `assume_answer` is False, or it is unset and the interactive
prompt is declined — `update_conf_json` returns normally without writing the
registry file. -/
theorem c10_declined_no_write (cts : List TestEntry) (os : List (String × String))
    (cid ft : String) (declared : List String) (ans : Option Bool) (p : Bool)
    (hsent : declared.any (fun test => strContains (lowerStr test) "no test") = false)
    (hnr : findUnregistered cts cid ft declared ≠ [])
    (hans : ans = some false ∨ (ans = none ∧ p = false)) :
    update_conf_json (some { tests := some cts, others := os }) declared cid ft ans p =
      Except.ok none := by
  have hres : resolveAnswer ans p = false := by
    rcases hans with h | ⟨h1, h2⟩
    · rw [h]
      rfl
    · rw [h1, h2]
      rfl
  have hne : declared.isEmpty = false := by
    rcases declared with _ | ⟨a, l⟩
    · exact absurd rfl hnr
    · rfl
  have hnre : (findUnregistered cts cid ft declared).isEmpty = false :=
    List.isEmpty_eq_false.mpr hnr
  simp [update_conf_json, hne, hsent, hnre, hres]

/-- C10 witness: a declined prompt with one unregistered test playbook. -/
theorem c10_declined_no_write_witness :
    update_conf_json (some { tests := some [], others := [] }) ["TPB1"] "Slack" "script"
      none false = Except.ok none :=
  c10_declined_no_write [] [] "Slack" "script" ["TPB1"] none false
    (by decide) (by decide) (Or.inr ⟨rfl, rfl⟩)

end DemistoSdk
